import Mathlib

/-!
# Verification of the LabDAMD gRPC task server (shallow embedding)

This file embeds, in Lean 4, the parts of the `lab02-servidor-grpc`
JavaScript sources that the specification's claims talk about:

* `utils/protoloader.js` — the priority code conversions
  (`convertPriority`, `convertFromPriority`);
* `client.js` — the round-robin client multiplexer
  (`getNextAuthClient`, `getNextTaskClient`);
* `services/TaskService.js` — the unary task handlers
  (`createTask`, `getTasks`, `updateTask`, `deleteTask`), the broadcast
  (`notifyStreams`), the streaming handlers (`streamTasks`,
  `streamNotifications`, `chat`) and their `end`/`error` cleanup;
* `services/AuthService.js` — the unary `validateToken` handler.

JavaScript `Map`s (insertion-ordered) are modelled as association lists;
the asynchronous database module (not part of the analysed sources) is
modelled by oracle parameters of type `Except String _` — `.error`
standing for the underlying call throwing; the JWT verifier is a
parameter `verify : String → Option User` (`none` = `jwt.verify` throws).
Callbacks returning either a gRPC error or a response are modelled as
`Except GrpcErr _`.
-/

namespace LabDAMD

/-! ## gRPC status codes (from `@grpc/grpc-js`) -/

def OK : Nat := 0
def INVALID_ARGUMENT : Nat := 3
def NOT_FOUND : Nat := 5
def ALREADY_EXISTS : Nat := 6
def PERMISSION_DENIED : Nat := 7
def INTERNAL : Nat := 13
def UNAUTHENTICATED : Nat := 16

/-- A gRPC error handed to a unary callback: `{code, message}`. -/
structure GrpcErr where
  code : Nat
  msg : String
  deriving Repr, DecidableEq

/-! ## `utils/protoloader.js` — priority conversions -/

/-- The array `[low, medium, high, urgent]` of `convertFromPriority`. -/
def priorityNames : List String := ["low", "medium", "high", "urgent"]

/-- The object `{low: 0, medium: 1, high: 2, urgent: 3}` of
`convertPriority`, as an association list. -/
def priorityCodes : List (String × Int) :=
  [("low", 0), ("medium", 1), ("high", 2), ("urgent", 3)]

/-- `ProtoLoader.convertFromPriority(priorityValue)`:
`priorityMap[priorityValue] || medium`.  A negative or too-large index
reads `undefined` from the array, which the `||` turns into `medium`. -/
def convertFromPriority (priorityValue : Int) : String :=
  match (if 0 ≤ priorityValue then priorityNames[priorityValue.toNat]? else none) with
  | some s => s
  | none => "medium"

/-- `ProtoLoader.convertPriority(priority)`:
`priorityMap[priority] || 1`.  A missing key reads `undefined`; the `||`
turns both `undefined` and the falsy looked-up `0` into `1`. -/
def convertPriority (priority : String) : Int :=
  match priorityCodes.lookup priority with
  | some v => if v = 0 then 1 else v
  | none => 1

/-! ## `client.js` — the round-robin client multiplexer

A stub is identified by the replica address it was built for
(`this.servers.map(addr => new Proto.Service(addr, credentials))`), so we
model a stub as its address `String`.  The constructor sets both cursors
to `0`. -/

/-- The mutable fields of `GrpcClient` that the multiplexer touches. -/
structure GrpcClient where
  authClients : List String
  taskClients : List String
  currentAuthIndex : Nat
  currentTaskIndex : Nat
  deriving Repr, DecidableEq

/-- `new GrpcClient(servers)` followed by `initialize()`: one stub per
address, in address order, both round-robin cursors at `0`. -/
def GrpcClient.init (servers : List String) : GrpcClient :=
  { authClients := servers
    taskClients := servers
    currentAuthIndex := 0
    currentTaskIndex := 0 }

/-- `getNextAuthClient()`: return `authClients[currentAuthIndex]`, then
`currentAuthIndex = (currentAuthIndex + 1) % authClients.length`.
An out-of-range read yields `undefined`, modelled `none`. -/
def getNextAuthClient (c : GrpcClient) : Option String × GrpcClient :=
  (c.authClients[c.currentAuthIndex]?,
   { c with currentAuthIndex := (c.currentAuthIndex + 1) % c.authClients.length })

/-- `getNextTaskClient()`: return `taskClients[currentTaskIndex]`, then
`currentTaskIndex = (currentTaskIndex + 1) % taskClients.length`. -/
def getNextTaskClient (c : GrpcClient) : Option String × GrpcClient :=
  (c.taskClients[c.currentTaskIndex]?,
   { c with currentTaskIndex := (c.currentTaskIndex + 1) % c.taskClients.length })

/-- The list of stubs produced by `n` consecutive `getNextTaskClient()`
calls, together with the final client state. -/
def selectTaskN (c : GrpcClient) : Nat → List (Option String) × GrpcClient
  | 0 => ([], c)
  | n + 1 =>
    let (s, c') := getNextTaskClient c
    let (rest, c'') := selectTaskN c' n
    (s :: rest, c'')

/-- The list of stubs produced by `n` consecutive `getNextAuthClient()`
calls, together with the final client state. -/
def selectAuthN (c : GrpcClient) : Nat → List (Option String) × GrpcClient
  | 0 => ([], c)
  | n + 1 =>
    let (s, c') := getNextAuthClient c
    let (rest, c'') := selectAuthN c' n
    (s :: rest, c'')

/-! ## Data model — tasks, users, notifications, chat messages

`models/Task.js` and `models/User.js` are not part of the analysed
sources; the field lists follow the columns the services read and write
(`id, title, description, priority, userId, completed` for tasks,
`id, …` for users) and the spec's data model.  `toProtobuf` is treated
as the identity on these fields. -/

/-- JavaScript `String.prototype.trim()`: strip whitespace from both
ends, modelled on the character list so that it evaluates. -/
def trimString (s : String) : String :=
  ⟨((s.data.dropWhile (fun c => c.isWhitespace)).reverse.dropWhile
      (fun c => c.isWhitespace)).reverse⟩

/-- A task row / task message. -/
structure Task where
  id : String
  title : String
  description : String
  priority : String
  userId : String
  completed : Bool
  deriving Repr, DecidableEq

/-- The caller identity decoded from a JWT (`jwt.verify(token, secret)`). -/
structure User where
  id : String
  deriving Repr, DecidableEq

/-- A notification written to `streamNotifications` sessions:
`{type, task: task.toProtobuf(), timestamp}`. -/
structure Notification where
  ntype : String
  task : Task
  timestamp : Nat
  deriving Repr, DecidableEq

/-- A chat message relayed to other chat clients:
`{user_id, message, timestamp}` with a server-side timestamp. -/
structure ChatMsg where
  user_id : String
  message : String
  timestamp : Nat
  deriving Repr, DecidableEq

/-! ## Sessions and the insertion-ordered session maps

A session wraps a duplex/server-streaming handle.  `failing = true`
models a handle whose `write` throws (peer gone, serialization error);
`ended` records that `call.end()` was invoked on it; `buffer` is the
sequence of messages successfully written into the handle. -/

/-- One registered streaming session holding messages of type `α`. -/
structure Session (α : Type) where
  failing : Bool
  ended : Bool
  buffer : List α
  deriving Repr, DecidableEq

/-- A freshly opened session: live handle, nothing written yet. -/
def Session.fresh {α : Type} : Session α :=
  { failing := false, ended := false, buffer := [] }

/-- `call.write(msg)` without a surrounding `try`: `none` models the
write throwing, `some` the message reaching the handle's buffer. -/
def writeRaw {α : Type} (s : Session α) (msg : α) : Option (Session α) :=
  if s.failing then none else some { s with buffer := s.buffer ++ [msg] }

/-- `try { call.write(msg) } catch (err) { console.error(...) }`: a
throwing write is contained (logged), leaving the session unchanged. -/
def writeCaught {α : Type} (s : Session α) (msg : α) : Session α :=
  match writeRaw s msg with
  | some s' => s'
  | none => s

/-- `Map.prototype.set` on an insertion-ordered map: replace in place if
the key exists, else append. -/
def mapSet {α : Type} (m : List (String × α)) (k : String) (v : α) :
    List (String × α) :=
  if (m.lookup k).isSome then
    m.map (fun p => if p.1 = k then (k, v) else p)
  else m ++ [(k, v)]

/-- `Map.prototype.delete`: drop the entry with the given key, if any. -/
def mapDelete {α : Type} (m : List (String × α)) (k : String) :
    List (String × α) :=
  m.filter (fun p => ¬ p.1 = k)

/-- The three session maps owned by a `TaskService` instance:
`streamingSessions` (notifications), `taskStreams`, `chatClients`. -/
structure ServerState where
  streamingSessions : List (String × Session Notification)
  taskStreams : List (String × Session Task)
  chatClients : List (String × Session ChatMsg)
  deriving Repr, DecidableEq

/-- A server with no registered sessions. -/
def ServerState.empty : ServerState :=
  { streamingSessions := [], taskStreams := [], chatClients := [] }

/-! ## `notifyStreams` — the event broadcaster -/

/-- `notifyStreams(type, task)`: iterate `streamingSessions`, writing
`{type, task, timestamp}` under a per-write `try/catch`; then iterate
`taskStreams`, writing the bare task the same way.  The per-write catch
makes the whole broadcast total: no failure escapes to the caller. -/
def notifyStreams (st : ServerState) (ntype : String) (task : Task)
    (now : Nat) : ServerState :=
  { st with
    streamingSessions := st.streamingSessions.map
      (fun p => (p.1, writeCaught p.2 ⟨ntype, task, now⟩))
    taskStreams := st.taskStreams.map
      (fun p => (p.1, writeCaught p.2 task)) }

/-! ## `services/TaskService.js` — unary handlers

Each handler is a function of its oracle inputs (JWT verifier, database
call outcomes) returning the callback's outcome (`Except GrpcErr resp`)
and the server state after any broadcast.  The surrounding
`try { … } catch (error) { grpcError.code = error.code || INTERNAL }`
is rendered by each throwing site producing the code the catch would
assign: a database throw carries no `code` and becomes `INTERNAL`; the
`validateToken` throw carries `UNAUTHENTICATED`. -/

/-- The request of `createTask`: `{token, title, description, priority}`. -/
structure CreateTaskRequest where
  token : String
  title : String
  description : String
  priority : Int
  deriving Repr, DecidableEq

/-- The success payload of `createTask`: `{success, message, task}`. -/
structure CreateTaskResponse where
  success : Bool
  message : String
  task : Task
  deriving Repr, DecidableEq

/-- The `taskData` object `createTask` builds (with `completed: false`
and the fresh uuid `newId`). -/
def builtTask (newId : String) (user : User) (req : CreateTaskRequest) : Task :=
  { id := newId
    title := trimString req.title
    description := req.description
    priority := convertFromPriority req.priority
    userId := user.id
    completed := false }

/-- `createTask(call, callback)`.  Oracles: `verify` is `jwt.verify`
(`none` = throws `UNAUTHENTICATED`), `validate` is, from `Task.validate`, the
`isValid`, `dbInsert` the `database.run(INSERT …)` outcome (`.error` =
the call throws, caught as `INTERNAL`), `newId` the generated uuid. -/
def createTask (verify : String → Option User) (validate : Task → Bool)
    (dbInsert : Task → Except String Unit) (newId : String)
    (st : ServerState) (req : CreateTaskRequest) (now : Nat) :
    Except GrpcErr CreateTaskResponse × ServerState :=
  match verify req.token with
  | none => (.error ⟨UNAUTHENTICATED, "Token inválido"⟩, st)
  | some user =>
    if trimString req.title = "" then
      (.error ⟨INVALID_ARGUMENT, "Título é obrigatório"⟩, st)
    else
      if ¬ validate (builtTask newId user req) then
        (.error ⟨INVALID_ARGUMENT, "Dados inválidos"⟩, st)
      else
        match dbInsert (builtTask newId user req) with
        | .error m => (.error ⟨INTERNAL, m⟩, st)
        | .ok _ =>
          (.ok ⟨true, "Tarefa criada com sucesso", builtTask newId user req⟩,
           notifyStreams st "TASK_CREATED" (builtTask newId user req) now)

/-- The request of `getTasks`: optional `completed`/`priority` filters and
`page`/`limit` (proto numbers; `0` is the absent/default value the
`||` fallbacks react to). -/
structure GetTasksRequest where
  token : String
  completed : Option Bool
  priority : Option Int
  page : Nat
  lim : Nat
  deriving Repr, DecidableEq

/-- The success payload of `getTasks` (tasks page plus paging echo). -/
structure GetTasksResponse where
  success : Bool
  tasks : List Task
  total : Nat
  page : Nat
  lim : Nat
  deriving Repr, DecidableEq

/-- The WHERE clause built by `getTasks`:
`userId = ? [AND completed = ?] [AND priority = ?]`. -/
def getTasksFilter (user : User) (req : GetTasksRequest) (t : Task) : Bool :=
  t.userId = user.id
    && (match req.completed with | some c => t.completed = c | none => true)
    && (match req.priority with
        | some p => t.priority = convertFromPriority p
        | none => true)

/-- Modelled from the spec: `database.getAllWithPagination` is part of
the database module, which is not among the analysed sources; the spec's
Task Store Adapter contract (§2, §6: "filtered/paginated query") is
rendered as offset/limit pagination over the filtered rows.  The `ORDER
BY createdAt DESC` happens inside the same missing module and does not
affect row counts, so rows are kept in table order here. -/
def paginate (rows : List Task) (page lim : Nat) : List Task :=
  (rows.drop ((page - 1) * lim)).take lim

/-- `getTasks(call, callback)`.  `table` is the `tasks` table contents;
`page || 1` and `Math.min(limit || 10, 100)` compute the effective
paging. -/
def getTasks (verify : String → Option User) (table : List Task)
    (req : GetTasksRequest) : Except GrpcErr GetTasksResponse :=
  match verify req.token with
  | none => .error ⟨UNAUTHENTICATED, "Token inválido"⟩
  | some user =>
    let rows := table.filter (getTasksFilter user req)
    let pageNum := if req.page = 0 then 1 else req.page
    let limitNum := min (if req.lim = 0 then 10 else req.lim) 100
    .ok ⟨true, paginate rows pageNum limitNum, rows.length, pageNum, limitNum⟩

/-- The request of `updateTask`; `description`, `completed`, `priority` use
`??`/presence checks, so they are optional here. -/
structure UpdateTaskRequest where
  token : String
  task_id : String
  title : String
  description : Option String
  completed : Option Bool
  priority : Option Int
  deriving Repr, DecidableEq

/-- The `updateData` object `updateTask` builds from the request and the
existing row: `title || existing.title`, `description ?? existing`,
`completed ?? existing`, decoded `priority` if present. -/
def updateData (existing : Task) (req : UpdateTaskRequest) : Task :=
  { existing with
    title := if req.title = "" then existing.title else req.title
    description := req.description.getD existing.description
    completed := req.completed.getD existing.completed
    priority := match req.priority with
      | some p => convertFromPriority p
      | none => existing.priority }

/-- `updateTask(call, callback)`.  Oracles: `dbGet` is the `SELECT` of
the existing row, `dbUpdate` the `changes` count of the `UPDATE` as a function
of the written `updateData`, `dbReread` the re-`SELECT` after the update
(its row is what gets broadcast). -/
def updateTask (verify : String → Option User)
    (dbGet : Except String (Option Task))
    (dbUpdate : Task → Except String Nat)
    (dbReread : Except String (Option Task))
    (st : ServerState) (req : UpdateTaskRequest) (now : Nat) :
    Except GrpcErr CreateTaskResponse × ServerState :=
  match verify req.token with
  | none => (.error ⟨UNAUTHENTICATED, "Token inválido"⟩, st)
  | some _user =>
    match dbGet with
    | .error m => (.error ⟨INTERNAL, m⟩, st)
    | .ok none => (.error ⟨NOT_FOUND, "Tarefa não encontrada"⟩, st)
    | .ok (some existing) =>
      match dbUpdate (updateData existing req) with
      | .error m => (.error ⟨INTERNAL, m⟩, st)
      | .ok 0 => (.error ⟨INTERNAL, "Falha ao atualizar tarefa"⟩, st)
      | .ok (_ + 1) =>
        match dbReread with
        | .error m => (.error ⟨INTERNAL, m⟩, st)
        | .ok none =>
          -- `updatedRow.completed` on `undefined` throws; caught as INTERNAL
          (.error ⟨INTERNAL, "Erro interno do servidor"⟩, st)
        | .ok (some updated) =>
          (.ok ⟨true, "Tarefa atualizada com sucesso", updated⟩,
           notifyStreams st "TASK_UPDATED" updated now)

/-- The success payload of `deleteTask`: `{success, message}`. -/
structure DeleteTaskResponse where
  success : Bool
  message : String
  deriving Repr, DecidableEq

/-- `deleteTask(call, callback)`.  Oracles: `dbGet` the `SELECT` of the
row, `dbDelete` the `changes` count of the `DELETE`.  The broadcast carries
the pre-deletion row. -/
def deleteTask (verify : String → Option User)
    (dbGet : Except String (Option Task)) (dbDelete : Except String Nat)
    (st : ServerState) (token _task_id : String) (now : Nat) :
    Except GrpcErr DeleteTaskResponse × ServerState :=
  match verify token with
  | none => (.error ⟨UNAUTHENTICATED, "Token inválido"⟩, st)
  | some _user =>
    match dbGet with
    | .error m => (.error ⟨INTERNAL, m⟩, st)
    | .ok none => (.error ⟨NOT_FOUND, "Tarefa não encontrada"⟩, st)
    | .ok (some existing) =>
      match dbDelete with
      | .error m => (.error ⟨INTERNAL, m⟩, st)
      | .ok 0 => (.error ⟨INTERNAL, "Falha ao deletar tarefa"⟩, st)
      | .ok (_ + 1) =>
        (.ok ⟨true, "Tarefa deletada com sucesso"⟩,
         notifyStreams st "TASK_DELETED" existing now)

/-! ## `services/AuthService.js` — `validateToken`

The whole body sits in one `try`; the `catch` unconditionally reports
`UNAUTHENTICATED` ("Token inválido").  So a throwing `jwt.verify` *and a
throwing `database.get`* both land there; only the in-`try` early
returns (`!token`, user row missing) keep their own codes. -/

/-- The success payload of `validateToken`: `{valid, user, message}`. -/
structure ValidateTokenResponse where
  valid : Bool
  user : User
  message : String
  deriving Repr, DecidableEq

/-- `AuthService.validateToken(call, callback)`.  `verify` is
`jwt.verify` (`none` = throws), `dbGet` the
`database.get(SELECT * FROM users WHERE id = ?)` outcome
(`.error` = the store call throws). -/
def authValidateToken (verify : String → Option User)
    (dbGet : User → Except String (Option User)) (token : String) :
    Except GrpcErr ValidateTokenResponse :=
  if token = "" then .error ⟨UNAUTHENTICATED, "Token não fornecido"⟩
  else
    match verify token with
    | none => .error ⟨UNAUTHENTICATED, "Token inválido"⟩
    | some decoded =>
      match dbGet decoded with
      | .error _ =>
        -- the store throw is swallowed by the catch-all: UNAUTHENTICATED
        .error ⟨UNAUTHENTICATED, "Token inválido"⟩
      | .ok none => .error ⟨NOT_FOUND, "Usuário não encontrado"⟩
      | .ok (some user) => .ok ⟨true, user, "Token válido"⟩

/-! ## Streaming handlers

`streamTasks(call)` runs in two phases.  Synchronously it generates a
stream id, puts the call into `taskStreams`, attaches the `end`/`error`
handlers, and returns — the credential check and snapshot live in a
`validateToken(...).then(...).catch(...)` chain that resolves only
*after* the handler has returned.  Crucially, the `.catch` (invalid
token, database throw, or a throwing snapshot write) only calls
`call.end()`; it does **not** delete the session from `taskStreams`.
Deletion happens solely in the `end`/`error` event handlers. -/

/-- Phase 1 of `streamTasks`: register the fresh session and return.
Nothing has been written into the handle yet. -/
def streamTasksOpen (st : ServerState) (streamId : String) : ServerState :=
  { st with taskStreams := mapSet st.taskStreams streamId Session.fresh }

/-- Phase 2 of `streamTasks`: the promise chain resolves.  With a valid
token the user's rows (`SELECT * FROM tasks WHERE userId = ?`) are
written one by one; a rejected validation, a throwing query, or a
throwing write reaches the `.catch`, which ends the call and leaves the
registry entry in place. -/
def streamTasksResolve (verify : String → Option User)
    (dbAll : Except String (List Task)) (st : ServerState)
    (streamId token : String) : ServerState :=
  match (st.taskStreams.lookup streamId) with
  | none => st
  | some s =>
    match verify token with
    | none =>
      { st with taskStreams :=
          mapSet st.taskStreams streamId { s with ended := true } }
    | some user =>
      match dbAll with
      | .error _ =>
        { st with taskStreams :=
            mapSet st.taskStreams streamId { s with ended := true } }
      | .ok table =>
        let rows := table.filter (fun t => t.userId = user.id)
        if s.failing ∧ rows ≠ [] then
          -- the first snapshot write throws; the .catch ends the call
          { st with taskStreams :=
              mapSet st.taskStreams streamId { s with ended := true } }
        else
          let s' := { s with buffer := s.buffer ++ rows }
          { st with taskStreams := mapSet st.taskStreams streamId s' }

/-- The `end` handler of `streamTasks`: delete the session, end the call. -/
def streamTasksOnEnd (st : ServerState) (streamId : String) : ServerState :=
  { st with taskStreams := mapDelete st.taskStreams streamId }

/-- The `error` handler of `streamTasks`: delete the session. -/
def streamTasksOnError (st : ServerState) (streamId : String) : ServerState :=
  { st with taskStreams := mapDelete st.taskStreams streamId }

/-- `streamNotifications(call)`: generate an id, register the call, and
attach the cleanup handlers.  No credential is validated — the request's
token is never read. -/
def streamNotificationsOpen (st : ServerState) (streamId : String) :
    ServerState :=
  { st with streamingSessions :=
      mapSet st.streamingSessions streamId Session.fresh }

/-- The `end` handler of `streamNotifications`: delete the session. -/
def streamNotificationsOnEnd (st : ServerState) (streamId : String) :
    ServerState :=
  { st with streamingSessions := mapDelete st.streamingSessions streamId }

/-- The `error` handler of `streamNotifications`: delete the session. -/
def streamNotificationsOnError (st : ServerState) (streamId : String) :
    ServerState :=
  { st with streamingSessions := mapDelete st.streamingSessions streamId }

/-- `chat(call)`: register the duplex call under a fresh client id. -/
def chatOpen (st : ServerState) (clientId : String) : ServerState :=
  { st with chatClients := mapSet st.chatClients clientId Session.fresh }

/-- The `data` handler of `chat`: stamp the inbound `{user_id, message}`
with a server-side timestamp and write it, under a per-write
`try/catch`, to every chat client except the sender. -/
def chatOnData (st : ServerState) (senderId : String)
    (user_id message : String) (now : Nat) : ServerState :=
  let msg : ChatMsg := ⟨user_id, message, now⟩
  let relay := st.chatClients.map
    (fun p => if p.1 = senderId then p else (p.1, writeCaught p.2 msg))
  { st with chatClients := relay }

/-- The `end` handler of `chat`: delete the client, end the call. -/
def chatOnEnd (st : ServerState) (clientId : String) : ServerState :=
  { st with chatClients := mapDelete st.chatClients clientId }

/-- The `error` handler of `chat`: delete the client. -/
def chatOnError (st : ServerState) (clientId : String) : ServerState :=
  { st with chatClients := mapDelete st.chatClients clientId }

/-! ## Broadcast delivery, observationally -/

/-- What a broadcast achieves against a registry with an arbitrary
pattern of failing handles: every non-failing notification session has
received exactly one copy of the event, every non-failing task-feed
session exactly one copy of the task, failing handles are skipped
without affecting the rest, and the chat partition is untouched. -/
def BroadcastDelivered (st st' : ServerState) (ntype : String)
    (task : Task) (now : Nat) : Prop :=
  st'.streamingSessions.map (fun p => (p.1, p.2.buffer))
    = st.streamingSessions.map (fun p => (p.1,
        if p.2.failing then p.2.buffer
        else p.2.buffer ++ [⟨ntype, task, now⟩]))
  ∧ st'.taskStreams.map (fun p => (p.1, p.2.buffer))
    = st.taskStreams.map (fun p => (p.1,
        if p.2.failing then p.2.buffer else p.2.buffer ++ [task]))
  ∧ st'.chatClients = st.chatClients

/-! ## Association-map lemmas -/

/-- String `==` is false on provably distinct strings. -/
lemma string_beq_false {k a : String} (h : k ≠ a) : (k == a) = false := by
  simp [h]

/-- Deleting a key that is not present leaves the map unchanged. -/
lemma mapDelete_of_lookup_none {α : Type} (m : List (String × α)) (k : String)
    (h : m.lookup k = none) : mapDelete m k = m := by
  induction m with
  | nil => rfl
  | cons p rest ih =>
    obtain ⟨a, b⟩ := p
    by_cases hka : k = a
    · subst hka
      simp [List.lookup] at h
    · have e : (k == a) = false := string_beq_false hka
      simp [List.lookup, e] at h
      have hne : a ≠ k := fun hak => hka hak.symm
      simp [mapDelete, List.filter, hne] at *
      exact ih h

/-- After deletion the key no longer resolves. -/
lemma lookup_mapDelete_self {α : Type} (m : List (String × α)) (k : String) :
    (mapDelete m k).lookup k = none := by
  induction m with
  | nil => rfl
  | cons p rest ih =>
    obtain ⟨a, b⟩ := p
    by_cases hak : a = k
    · simp [mapDelete, List.filter, hak] at *
      exact ih
    · have e : (k == a) = false := string_beq_false (fun hka => hak hka.symm)
      simp [mapDelete, List.filter, hak, List.lookup, e] at *
      exact ih

/-- Deleting twice is the same as deleting once. -/
lemma mapDelete_idem {α : Type} (m : List (String × α)) (k : String) :
    mapDelete (mapDelete m k) k = mapDelete m k := by
  simp [mapDelete, List.filter_filter]

/-- `mapSet` makes the key resolve to the stored value. -/
lemma lookup_mapSet_self {α : Type} (m : List (String × α)) (k : String) (v : α) :
    (mapSet m k v).lookup k = some v := by
  unfold mapSet
  by_cases h : (m.lookup k).isSome
  · rw [if_pos h]
    induction m with
    | nil => simp [List.lookup] at h
    | cons p rest ih =>
      obtain ⟨a, b⟩ := p
      by_cases hak : a = k
      · subst hak
        simp only [List.map_cons, eq_self_iff_true, if_true]
        simp [List.lookup]
      · have e : (k == a) = false := string_beq_false (fun hka => hak hka.symm)
        simp only [List.lookup, e] at h
        simp only [List.map_cons, if_neg hak]
        simp only [List.lookup, e]
        exact ih h
  · rw [if_neg h]
    induction m with
    | nil => simp [List.lookup]
    | cons p rest ih =>
      obtain ⟨a, b⟩ := p
      by_cases hak : a = k
      · subst hak
        simp [List.lookup] at h
      · have e : (k == a) = false := string_beq_false (fun hka => hak hka.symm)
        simp only [List.lookup, e, Option.isSome] at h
        simp only [List.cons_append, List.lookup, e]
        exact ih h

/-- Looking up a key after a key-preserving, value-rewriting map applies
the rewrite to the looked-up value. -/
lemma lookup_map_value {α β : Type} (m : List (String × α)) (k : String)
    (f : α → β) :
    (m.map (fun p => (p.1, f p.2))).lookup k = (m.lookup k).map f := by
  induction m with
  | nil => rfl
  | cons p rest ih =>
    obtain ⟨a, b⟩ := p
    by_cases hka : k = a
    · subst hka
      simp [List.lookup]
    · have e : (k == a) = false := string_beq_false hka
      simp [List.lookup, e, ih]

/-! ## Claim theorems -/

/-- C6: `convertFromPriority` maps the codes 0, 1, 2, 3 to
`low`, `medium`, `high`, `urgent` respectively, and maps every
out-of-range code — negative or `≥ 4`, e.g. 99 — to `medium`,
never to an error. -/
theorem C6_convertFromPriority_total :
    convertFromPriority 0 = "low" ∧ convertFromPriority 1 = "medium" ∧
    convertFromPriority 2 = "high" ∧ convertFromPriority 3 = "urgent" ∧
    ∀ v : Int, (v < 0 ∨ 4 ≤ v) → convertFromPriority v = "medium" := by
  refine ⟨rfl, rfl, rfl, rfl, ?_⟩
  intro v hv
  unfold convertFromPriority
  rcases hv with h | h
  · rw [if_neg (by omega)]
  · rw [if_pos (by omega)]
    have hlen : priorityNames.length ≤ v.toNat := by
      simp only [priorityNames, List.length_cons, List.length_nil]
      omega
    rw [List.getElem?_eq_none hlen]

/-- C6 witness: the out-of-range code 99 decodes to `medium`. -/
theorem C6_witness : convertFromPriority 99 = "medium" :=
  C6_convertFromPriority_total.2.2.2.2 99 (Or.inr (by norm_num))

/-- C9: `convertPriority` maps `medium`, `high`, `urgent` to 1, 2, 3, but
maps `low` to 1 rather than 0 (the looked-up 0 is discarded by the
`|| 1` fallback, as is any unknown name); hence the decode inverts the
encode on `medium`, `high`, `urgent`, while `low` round-trips to
`medium`. -/
theorem C9_convertPriority_low_collapse :
    convertPriority "low" = 1 ∧ convertPriority "medium" = 1 ∧
    convertPriority "high" = 2 ∧ convertPriority "urgent" = 3 ∧
    convertFromPriority (convertPriority "medium") = "medium" ∧
    convertFromPriority (convertPriority "high") = "high" ∧
    convertFromPriority (convertPriority "urgent") = "urgent" ∧
    convertFromPriority (convertPriority "low") = "medium" ∧
    ∀ p : String, p ≠ "low" → p ≠ "medium" → p ≠ "high" → p ≠ "urgent" →
      convertPriority p = 1 := by
  refine ⟨rfl, rfl, rfl, rfl, rfl, rfl, rfl, rfl, ?_⟩
  intro p h1 h2 h3 h4
  have e1 : (p == "low") = false := by simp [h1]
  have e2 : (p == "medium") = false := by simp [h2]
  have e3 : (p == "high") = false := by simp [h3]
  have e4 : (p == "urgent") = false := by simp [h4]
  unfold convertPriority priorityCodes
  simp [List.lookup, e1, e2, e3, e4]

/-- C9 witness: an unknown priority name also encodes to 1. -/
theorem C9_witness : convertPriority "banana" = 1 :=
  C9_convertPriority_low_collapse.2.2.2.2.2.2.2.2 "banana"
    (by decide) (by decide) (by decide) (by decide)

/-- Mapping each index of a list to its optional element gives the list
under `some`. -/
lemma range_map_getElem {α : Type} (l : List α) :
    (List.range l.length).map (fun k => l[k]?) = l.map some := by
  apply List.ext_get?
  intro n
  by_cases hn : n < l.length
  · rw [List.get?_eq_getElem?, List.get?_eq_getElem?]
    rw [List.getElem?_map, List.getElem?_map, List.getElem?_range hn]
    simp [List.getElem?_eq_getElem hn]
  · have h1 : (List.range l.length).length ≤ n := by
      simpa [List.length_range] using Nat.le_of_not_lt hn
    have h2 : l.length ≤ n := Nat.le_of_not_lt hn
    rw [List.get?_eq_getElem?, List.get?_eq_getElem?]
    rw [List.getElem?_map, List.getElem?_map]
    rw [List.getElem?_eq_none h1, List.getElem?_eq_none h2]
    rfl

/-- The outputs of `n` consecutive `getNextTaskClient` calls starting
from a valid cursor `i`: successive indices modulo the pool size. -/
lemma selectTaskN_outputs (a : List String) (j : Nat) (stubs : List String)
    (n : Nat) : ∀ i : Nat, i < stubs.length →
    (selectTaskN ⟨a, stubs, j, i⟩ n).1
      = (List.range n).map (fun k => stubs[(i + k) % stubs.length]?) := by
  induction n with
  | zero => intro i _; simp [selectTaskN]
  | succ n ih =>
    intro i hi
    have hN : 0 < stubs.length := Nat.pos_of_ne_zero (by omega)
    simp only [selectTaskN, getNextTaskClient]
    rw [ih ((i + 1) % stubs.length) (Nat.mod_lt _ hN)]
    rw [List.range_succ_eq_map]
    simp only [List.map_cons, List.map_map]
    congr 1
    · rw [Nat.add_zero, Nat.mod_eq_of_lt hi]
    · apply List.map_congr_left
      intro k _
      simp only [Function.comp, Nat.succ_eq_add_one]
      rw [Nat.mod_add_mod]
      rw [show i + 1 + k = i + (k + 1) by omega]

/-- The task cursor after `n` calls from a valid cursor `i`. -/
lemma selectTaskN_cursor (a : List String) (j : Nat) (stubs : List String)
    (n : Nat) : ∀ i : Nat, i < stubs.length →
    (selectTaskN ⟨a, stubs, j, i⟩ n).2
      = ⟨a, stubs, j, (i + n) % stubs.length⟩ := by
  induction n with
  | zero =>
    intro i hi
    simp [selectTaskN, Nat.mod_eq_of_lt hi]
  | succ n ih =>
    intro i hi
    have hN : 0 < stubs.length := Nat.pos_of_ne_zero (by omega)
    simp only [selectTaskN, getNextTaskClient]
    rw [ih ((i + 1) % stubs.length) (Nat.mod_lt _ hN)]
    rw [Nat.mod_add_mod]
    congr 2
    omega

/-- The outputs of `n` consecutive `getNextAuthClient` calls starting
from a valid cursor `i`. -/
lemma selectAuthN_outputs (t : List String) (j : Nat) (stubs : List String)
    (n : Nat) : ∀ i : Nat, i < stubs.length →
    (selectAuthN ⟨stubs, t, i, j⟩ n).1
      = (List.range n).map (fun k => stubs[(i + k) % stubs.length]?) := by
  induction n with
  | zero => intro i _; simp [selectAuthN]
  | succ n ih =>
    intro i hi
    have hN : 0 < stubs.length := Nat.pos_of_ne_zero (by omega)
    simp only [selectAuthN, getNextAuthClient]
    rw [ih ((i + 1) % stubs.length) (Nat.mod_lt _ hN)]
    rw [List.range_succ_eq_map]
    simp only [List.map_cons, List.map_map]
    congr 1
    · rw [Nat.add_zero, Nat.mod_eq_of_lt hi]
    · apply List.map_congr_left
      intro k _
      simp only [Function.comp, Nat.succ_eq_add_one]
      rw [Nat.mod_add_mod]
      rw [show i + 1 + k = i + (k + 1) by omega]

/-- The auth cursor after `n` calls from a valid cursor `i`. -/
lemma selectAuthN_cursor (t : List String) (j : Nat) (stubs : List String)
    (n : Nat) : ∀ i : Nat, i < stubs.length →
    (selectAuthN ⟨stubs, t, i, j⟩ n).2
      = ⟨stubs, t, (i + n) % stubs.length, j⟩ := by
  induction n with
  | zero =>
    intro i hi
    simp [selectAuthN, Nat.mod_eq_of_lt hi]
  | succ n ih =>
    intro i hi
    have hN : 0 < stubs.length := Nat.pos_of_ne_zero (by omega)
    simp only [selectAuthN, getNextAuthClient]
    rw [ih ((i + 1) % stubs.length) (Nat.mod_lt _ hN)]
    rw [Nat.mod_add_mod]
    congr 2
    omega

/-- C5: for a pool of `N` replica addresses, `N` consecutive
multiplexer selections (`getNextTaskClient`, resp. `getNextAuthClient`)
return each replica's stub exactly once in insertion order, selection
`N + 1` returns the first stub again, and the per-service cursor ends
each call within `[0, N)`, incremented modulo `N`. -/
theorem C5_round_robin (servers : List String) (h : servers ≠ []) :
    (selectTaskN (GrpcClient.init servers) servers.length).1
      = servers.map some
    ∧ (selectTaskN (GrpcClient.init servers) (servers.length + 1)).1
      = servers.map some ++ [servers[0]?]
    ∧ (selectAuthN (GrpcClient.init servers) servers.length).1
      = servers.map some
    ∧ (selectAuthN (GrpcClient.init servers) (servers.length + 1)).1
      = servers.map some ++ [servers[0]?]
    ∧ (∀ n : Nat,
        (selectTaskN (GrpcClient.init servers) n).2.currentTaskIndex
          < servers.length)
    ∧ (∀ n : Nat,
        (selectAuthN (GrpcClient.init servers) n).2.currentAuthIndex
          < servers.length) := by
  have hN : 0 < servers.length := List.length_pos.mpr h
  have hinit : GrpcClient.init servers = ⟨servers, servers, 0, 0⟩ := rfl
  have houts : ∀ n : Nat,
      (selectTaskN (GrpcClient.init servers) n).1
        = (List.range n).map (fun k => servers[k % servers.length]?) := by
    intro n
    rw [hinit, selectTaskN_outputs servers 0 servers n 0 hN]
    apply List.map_congr_left
    intro k _
    rw [Nat.zero_add]
  have houtsA : ∀ n : Nat,
      (selectAuthN (GrpcClient.init servers) n).1
        = (List.range n).map (fun k => servers[k % servers.length]?) := by
    intro n
    rw [hinit, selectAuthN_outputs servers 0 servers n 0 hN]
    apply List.map_congr_left
    intro k _
    rw [Nat.zero_add]
  have hfull : (List.range servers.length).map
      (fun k => servers[k % servers.length]?) = servers.map some := by
    rw [← range_map_getElem servers]
    apply List.map_congr_left
    intro k hk
    rw [Nat.mod_eq_of_lt (List.mem_range.mp hk)]
  refine ⟨?_, ?_, ?_, ?_, ?_, ?_⟩
  · rw [houts, hfull]
  · rw [houts, List.range_succ, List.map_append, hfull]
    simp [Nat.mod_self]
  · rw [houtsA, hfull]
  · rw [houtsA, List.range_succ, List.map_append, hfull]
    simp [Nat.mod_self]
  · intro n
    rw [hinit, selectTaskN_cursor servers 0 servers n 0 hN]
    exact Nat.mod_lt _ hN
  · intro n
    rw [hinit, selectAuthN_cursor servers 0 servers n 0 hN]
    exact Nat.mod_lt _ hN

/-- C5 witness: three replicas are visited a, b, c, then a again. -/
theorem C5_witness :
    (selectTaskN (GrpcClient.init ["a", "b", "c"]) 4).1
      = [some "a", some "b", some "c", some "a"]
    ∧ (selectAuthN (GrpcClient.init ["a", "b", "c"]) 3).1
      = [some "a", some "b", some "c"] := by
  have h := C5_round_robin ["a", "b", "c"] (by simp)
  refine ⟨?_, ?_⟩
  · have := h.2.1
    simpa using this
  · have := h.2.2.1
    simpa using this

/-- C8: closing a session whose id is no longer present in its partition
map (as on a second terminal end or error signal) is a no-op — the map,
and with it every other registered session's entry, is left unchanged —
and a close right after a close is likewise absorbed, in each of the
three partitions. -/
theorem C8_close_idempotent (st : ServerState) (sid : String) :
    (st.taskStreams.lookup sid = none →
       streamTasksOnEnd st sid = st ∧ streamTasksOnError st sid = st)
    ∧ (st.streamingSessions.lookup sid = none →
       streamNotificationsOnEnd st sid = st
       ∧ streamNotificationsOnError st sid = st)
    ∧ (st.chatClients.lookup sid = none →
       chatOnEnd st sid = st ∧ chatOnError st sid = st)
    ∧ streamTasksOnEnd (streamTasksOnEnd st sid) sid = streamTasksOnEnd st sid
    ∧ streamNotificationsOnEnd (streamNotificationsOnEnd st sid) sid
      = streamNotificationsOnEnd st sid
    ∧ chatOnEnd (chatOnEnd st sid) sid = chatOnEnd st sid := by
  refine ⟨?_, ?_, ?_, ?_, ?_, ?_⟩
  · intro h
    have e := mapDelete_of_lookup_none _ _ h
    exact ⟨by simp [streamTasksOnEnd, e], by simp [streamTasksOnError, e]⟩
  · intro h
    have e := mapDelete_of_lookup_none _ _ h
    exact ⟨by simp [streamNotificationsOnEnd, e],
           by simp [streamNotificationsOnError, e]⟩
  · intro h
    have e := mapDelete_of_lookup_none _ _ h
    exact ⟨by simp [chatOnEnd, e], by simp [chatOnError, e]⟩
  · simp [streamTasksOnEnd, mapDelete_idem]
  · simp [streamNotificationsOnEnd, mapDelete_idem]
  · simp [chatOnEnd, mapDelete_idem]

/-- C8 witness: deleting an absent chat session id leaves a one-session
registry untouched. -/
theorem C8_witness :
    chatOnEnd
      { streamingSessions := []
        taskStreams := []
        chatClients := [("c1", Session.fresh)] } "c2"
      = { streamingSessions := []
          taskStreams := []
          chatClients := [("c1", Session.fresh)] } :=
  ((C8_close_idempotent _ "c2").2.2.1 (by decide)).1

/-- C10: with a valid token, the effective page size of `getTasks` is
`min(limit, 100)` for a non-zero requested limit and `10` when the limit
is absent or zero, so a single response carries at most 100 tasks. -/
theorem C10_page_size (verify : String → Option User) (table : List Task)
    (req : GetTasksRequest) (user : User)
    (hv : verify req.token = some user) :
    ∃ resp : GetTasksResponse,
      getTasks verify table req = .ok resp
      ∧ resp.lim = min (if req.lim = 0 then 10 else req.lim) 100
      ∧ (req.lim = 0 → resp.lim = 10)
      ∧ (req.lim ≠ 0 → resp.lim = min req.lim 100)
      ∧ resp.tasks.length ≤ resp.lim
      ∧ resp.tasks.length ≤ 100 := by
  refine ⟨⟨true, paginate (table.filter (getTasksFilter user req))
      (if req.page = 0 then 1 else req.page)
      (min (if req.lim = 0 then 10 else req.lim) 100),
      (table.filter (getTasksFilter user req)).length,
      if req.page = 0 then 1 else req.page,
      min (if req.lim = 0 then 10 else req.lim) 100⟩, ?_, rfl, ?_, ?_, ?_, ?_⟩
  · simp only [getTasks, hv]
  · intro h; simp [h]
  · intro h; simp [h]
  · simp only [paginate]
    rw [List.length_take]
    exact inf_le_left
  · simp only [paginate]
    rw [List.length_take]
    exact le_trans inf_le_left (min_le_right _ _)

/-- C10 witness: a request asking for 500 items is clamped to 100. -/
theorem C10_witness :
    ∃ resp : GetTasksResponse,
      getTasks (fun t => if t = "tok" then some ⟨"u1"⟩ else none) []
        ⟨"tok", none, none, 1, 500⟩ = .ok resp
      ∧ resp.lim = min (if (500:Nat) = 0 then 10 else 500) 100
      ∧ ((500:Nat) = 0 → resp.lim = 10)
      ∧ ((500:Nat) ≠ 0 → resp.lim = min 500 100)
      ∧ resp.tasks.length ≤ resp.lim
      ∧ resp.tasks.length ≤ 100 :=
  C10_page_size (fun t => if t = "tok" then some ⟨"u1"⟩ else none) []
    ⟨"tok", none, none, 1, 500⟩ ⟨"u1"⟩ (by simp)

/-- C7: each inbound chat message is stamped with the server-side
timestamp and relayed in exactly one copy to every other currently
connected chat session whose handle accepts the write, while the
sender's own session receives zero copies. -/
theorem C7_chat_relay (st : ServerState) (senderId uid mtext : String)
    (now : Nat) :
    (chatOnData st senderId uid mtext now).chatClients.map
        (fun p => (p.1, p.2.buffer))
      = st.chatClients.map (fun p => (p.1,
          if p.1 = senderId ∨ p.2.failing then p.2.buffer
          else p.2.buffer ++ [⟨uid, mtext, now⟩])) := by
  unfold chatOnData
  simp only [List.map_map]
  apply List.map_congr_left
  intro p _
  by_cases hs : p.1 = senderId
  · simp [hs]
  · by_cases hf : p.2.failing
    · simp [hs, hf, writeCaught, writeRaw]
    · simp [hs, hf, writeCaught, writeRaw]

/-- The broadcaster always achieves `BroadcastDelivered`, whatever the
pattern of failing handles in the registry. -/
lemma notifyStreams_delivered (st : ServerState) (ntype : String)
    (task : Task) (now : Nat) :
    BroadcastDelivered st (notifyStreams st ntype task now) ntype task now := by
  unfold BroadcastDelivered notifyStreams
  refine ⟨?_, ?_, rfl⟩ <;>
  · simp only [List.map_map]
    apply List.map_congr_left
    intro p _
    by_cases hf : p.2.failing <;> simp [writeCaught, writeRaw, hf]

/-- C1: for each committed mutation (`createTask`, `updateTask`,
`deleteTask`) over any registry of notification and task-feed sessions,
a write failure raised by any subset of handles during `notifyStreams`
neither prevents delivery to the other registered sessions nor
propagates to the mutating caller: the RPC still returns success and
every non-failing session receives the event. -/
theorem C1_broadcast_isolation (st : ServerState) (now : Nat) :
    (∀ (verify : String → Option User) (validate : Task → Bool)
       (dbInsert : Task → Except String Unit) (newId : String)
       (req : CreateTaskRequest) (user : User),
       verify req.token = some user →
       trimString req.title ≠ "" →
       validate (builtTask newId user req) = true →
       dbInsert (builtTask newId user req) = .ok () →
       (createTask verify validate dbInsert newId st req now).1
         = .ok ⟨true, "Tarefa criada com sucesso", builtTask newId user req⟩
       ∧ BroadcastDelivered st
           (createTask verify validate dbInsert newId st req now).2
           "TASK_CREATED" (builtTask newId user req) now)
    ∧ (∀ (verify : String → Option User)
         (dbGet : Except String (Option Task))
         (dbUpdate : Task → Except String Nat)
         (dbReread : Except String (Option Task))
         (req : UpdateTaskRequest) (user : User) (existing updated : Task)
         (chg : Nat),
         verify req.token = some user →
         dbGet = .ok (some existing) →
         dbUpdate (updateData existing req) = .ok chg →
         chg ≠ 0 →
         dbReread = .ok (some updated) →
         (updateTask verify dbGet dbUpdate dbReread st req now).1
           = .ok ⟨true, "Tarefa atualizada com sucesso", updated⟩
         ∧ BroadcastDelivered st
             (updateTask verify dbGet dbUpdate dbReread st req now).2
             "TASK_UPDATED" updated now)
    ∧ (∀ (verify : String → Option User)
         (dbGet : Except String (Option Task))
         (dbDelete : Except String Nat)
         (token task_id : String) (user : User) (existing : Task)
         (chg : Nat),
         verify token = some user →
         dbGet = .ok (some existing) →
         dbDelete = .ok chg →
         chg ≠ 0 →
         (deleteTask verify dbGet dbDelete st token task_id now).1
           = .ok ⟨true, "Tarefa deletada com sucesso"⟩
         ∧ BroadcastDelivered st
             (deleteTask verify dbGet dbDelete st token task_id now).2
             "TASK_DELETED" existing now) := by
  refine ⟨?_, ?_, ?_⟩
  · intro verify validate dbInsert newId req user hv ht hval hins
    have e : createTask verify validate dbInsert newId st req now
        = (.ok ⟨true, "Tarefa criada com sucesso", builtTask newId user req⟩,
           notifyStreams st "TASK_CREATED" (builtTask newId user req) now) := by
      unfold createTask
      simp only [hv]
      rw [if_neg ht, if_neg (not_not_intro hval), hins]
    rw [e]
    exact ⟨rfl, notifyStreams_delivered st "TASK_CREATED"
      (builtTask newId user req) now⟩
  · intro verify dbGet dbUpdate dbReread req user existing updated chg
      hv hget hupd hchg hre
    obtain ⟨c, rfl⟩ : ∃ c, chg = c + 1 := ⟨chg - 1, by omega⟩
    have e : updateTask verify dbGet dbUpdate dbReread st req now
        = (.ok ⟨true, "Tarefa atualizada com sucesso", updated⟩,
           notifyStreams st "TASK_UPDATED" updated now) := by
      unfold updateTask
      simp only [hv, hget, hre]
      rw [hupd]
    rw [e]
    exact ⟨rfl, notifyStreams_delivered st "TASK_UPDATED" updated now⟩
  · intro verify dbGet dbDelete token task_id user existing chg
      hv hget hdel hchg
    obtain ⟨c, rfl⟩ : ∃ c, chg = c + 1 := ⟨chg - 1, by omega⟩
    have e : deleteTask verify dbGet dbDelete st token task_id now
        = (.ok ⟨true, "Tarefa deletada com sucesso"⟩,
           notifyStreams st "TASK_DELETED" existing now) := by
      unfold deleteTask
      simp only [hv, hget, hdel]
    rw [e]
    exact ⟨rfl, notifyStreams_delivered st "TASK_DELETED" existing now⟩

/-- C1 witness: with one permanently failing notification session
registered next to a healthy one, creating a task still succeeds and the
healthy sessions receive the event. -/
theorem C1_witness :
    (createTask (fun t => if t = "tok" then some ⟨"u1"⟩ else none)
        (fun _ => true) (fun _ => .ok ()) "id1"
        { streamingSessions :=
            [("n1", ⟨true, false, []⟩), ("n2", ⟨false, false, []⟩)]
          taskStreams := [("t1", ⟨false, false, []⟩)]
          chatClients := [] }
        ⟨"tok", "Estudar gRPC", "", 2⟩ 5).1
      = .ok ⟨true, "Tarefa criada com sucesso",
          builtTask "id1" ⟨"u1"⟩ ⟨"tok", "Estudar gRPC", "", 2⟩⟩
    ∧ BroadcastDelivered
        { streamingSessions :=
            [("n1", ⟨true, false, []⟩), ("n2", ⟨false, false, []⟩)]
          taskStreams := [("t1", ⟨false, false, []⟩)]
          chatClients := [] }
        (createTask (fun t => if t = "tok" then some ⟨"u1"⟩ else none)
          (fun _ => true) (fun _ => .ok ()) "id1"
          { streamingSessions :=
              [("n1", ⟨true, false, []⟩), ("n2", ⟨false, false, []⟩)]
            taskStreams := [("t1", ⟨false, false, []⟩)]
            chatClients := [] }
          ⟨"tok", "Estudar gRPC", "", 2⟩ 5).2
        "TASK_CREATED" (builtTask "id1" ⟨"u1"⟩ ⟨"tok", "Estudar gRPC", "", 2⟩)
        5 :=
  (C1_broadcast_isolation _ 5).1
    (fun t => if t = "tok" then some ⟨"u1"⟩ else none)
    (fun _ => true) (fun _ => .ok ()) "id1"
    ⟨"tok", "Estudar gRPC", "", 2⟩ ⟨"u1"⟩
    (by simp) (by decide) rfl rfl

/-- C3 counterexample: with a decodable token and a throwing store call,
`AuthService.validateToken` reports UNAUTHENTICATED — the internal store
fault surfaces to the caller as a credential failure, which the claim
rules out. -/
theorem C3_counterexample :
    authValidateToken (fun _ => some ⟨"u1"⟩) (fun _ => .error "db down") "tok"
      = .error ⟨UNAUTHENTICATED, "Token inválido"⟩ := by
  rfl

/-- C3 amended: the TaskService unary handlers do translate each nested
failure to its own terminal status — `error.code || INTERNAL` sends a
store fault to INTERNAL, never UNAUTHENTICATED, and a failed token check
to UNAUTHENTICATED — but `AuthService.validateToken` maps every failure
raised inside its try block, a store fault included, to UNAUTHENTICATED. -/
theorem C3_amended_status_translation (st : ServerState) (now : Nat) :
    (∀ (verify : String → Option User) (validate : Task → Bool)
       (dbmsg : String) (newId : String) (req : CreateTaskRequest)
       (user : User),
       verify req.token = some user →
       trimString req.title ≠ "" →
       validate (builtTask newId user req) = true →
       (createTask verify validate (fun _ => .error dbmsg) newId st req
         now).1 = .error ⟨INTERNAL, dbmsg⟩)
    ∧ (∀ (validate : Task → Bool) (dbInsert : Task → Except String Unit)
         (newId : String) (req : CreateTaskRequest),
       (createTask (fun _ => none) validate dbInsert newId st req now).1
         = .error ⟨UNAUTHENTICATED, "Token inválido"⟩)
    ∧ (∀ (verify : String → Option User) (dbmsg : String)
         (dbUpdate : Task → Except String Nat)
         (dbReread : Except String (Option Task))
         (req : UpdateTaskRequest) (user : User),
       verify req.token = some user →
       (updateTask verify (.error dbmsg) dbUpdate dbReread st req now).1
         = .error ⟨INTERNAL, dbmsg⟩)
    ∧ (∀ (verify : String → Option User) (dbmsg : String)
         (dbDelete : Except String Nat) (token task_id : String)
         (user : User),
       verify token = some user →
       (deleteTask verify (.error dbmsg) dbDelete st token task_id now).1
         = .error ⟨INTERNAL, dbmsg⟩)
    ∧ (∀ (verify : String → Option User) (dbmsg : String) (token : String)
         (user : User),
       token ≠ "" →
       verify token = some user →
       authValidateToken verify (fun _ => .error dbmsg) token
         = .error ⟨UNAUTHENTICATED, "Token inválido"⟩) := by
  refine ⟨?_, ?_, ?_, ?_, ?_⟩
  · intro verify validate dbmsg newId req user hv ht hval
    unfold createTask
    simp only [hv]
    rw [if_neg ht, if_neg (not_not_intro hval)]
  · intro validate dbInsert newId req
    unfold createTask
    rfl
  · intro verify dbmsg dbUpdate dbReread req user hv
    unfold updateTask
    simp only [hv]
  · intro verify dbmsg dbDelete token task_id user hv
    unfold deleteTask
    simp only [hv]
  · intro verify dbmsg token user htok hv
    unfold authValidateToken
    rw [if_neg htok]
    simp only [hv]

/-- C3 witness: a store fault during deleteTask is INTERNAL, yet the
same store fault during validateToken is UNAUTHENTICATED. -/
theorem C3_witness :
    (deleteTask (fun t => if t = "tok" then some ⟨"u1"⟩ else none)
        (.error "db down") (.ok 1) ServerState.empty "tok" "id1" 5).1
      = .error ⟨INTERNAL, "db down"⟩
    ∧ authValidateToken (fun t => if t = "tok" then some ⟨"u1"⟩ else none)
        (fun _ => .error "db down") "tok"
      = .error ⟨UNAUTHENTICATED, "Token inválido"⟩ :=
  ⟨(C3_amended_status_translation ServerState.empty 5).2.2.2.1
      (fun t => if t = "tok" then some ⟨"u1"⟩ else none) "db down" (.ok 1)
      "tok" "id1" ⟨"u1"⟩ (by simp),
   (C3_amended_status_translation ServerState.empty 5).2.2.2.2
      (fun t => if t = "tok" then some ⟨"u1"⟩ else none) "db down" "tok"
      ⟨"u1"⟩ (by decide) (by simp)⟩

/-- C2 counterexample: a `streamTasks` open with an invalid credential
ends the handle but leaves the session in `taskStreams` (CLOSED without
registry removal), and a `streamNotifications` session is never
credential-checked at open — it stays live and a broadcast delivers one
message to it, not zero. -/
theorem C2_counterexample :
    (streamTasksResolve (fun _ => none) (.ok [])
          (streamTasksOpen ServerState.empty "s1") "s1"
          "badtok").taskStreams.lookup "s1"
      = some ⟨false, true, ([] : List Task)⟩
    ∧ ((notifyStreams (streamNotificationsOpen ServerState.empty "s2")
          "TASK_CREATED" ⟨"id1", "T", "", "medium", "u1", false⟩
          7).streamingSessions.lookup "s2").map (fun s => s.buffer.length)
      = some 1 := by
  exact ⟨rfl, rfl⟩

/-- C2 amended: a `streamTasks` open whose credential fails validation
is ended with zero messages written, but its session is **not** removed
from the registry at that point; `streamNotifications` never validates
the credential at open and registers the session live regardless.  A
session is removed from its partition exactly when the transport
`end`/`error` handler fires, and that removal is idempotent. -/
theorem C2_amended_close_registry (st : ServerState) (sid tok : String)
    (verify : String → Option User) (dbAll : Except String (List Task))
    (hv : verify tok = none) :
    (streamTasksResolve verify dbAll (streamTasksOpen st sid) sid
        tok).taskStreams.lookup sid
      = some { failing := false, ended := true, buffer := ([] : List Task) }
    ∧ (streamNotificationsOpen st sid).streamingSessions.lookup sid
      = some Session.fresh
    ∧ (streamTasksOnEnd st sid).taskStreams.lookup sid = none
    ∧ (streamNotificationsOnEnd st sid).streamingSessions.lookup sid = none
    ∧ streamTasksOnEnd (streamTasksOnEnd st sid) sid
      = streamTasksOnEnd st sid := by
  have h1 : (streamTasksOpen st sid).taskStreams.lookup sid
      = some Session.fresh := by
    unfold streamTasksOpen
    exact lookup_mapSet_self _ _ _
  refine ⟨?_, ?_, ?_, ?_, ?_⟩
  · unfold streamTasksResolve
    simp only [h1, hv]
    exact lookup_mapSet_self _ _ _
  · unfold streamNotificationsOpen
    exact lookup_mapSet_self _ _ _
  · unfold streamTasksOnEnd
    exact lookup_mapDelete_self _ _
  · unfold streamNotificationsOnEnd
    exact lookup_mapDelete_self _ _
  · simp [streamTasksOnEnd, mapDelete_idem]

/-- C2 witness: the amended behavior at a concrete invalid-credential
open on an empty registry. -/
theorem C2_witness :
    (streamTasksResolve (fun _ => none) (.ok [])
          (streamTasksOpen ServerState.empty "sX") "sX"
          "bad").taskStreams.lookup "sX"
      = some { failing := false, ended := true, buffer := ([] : List Task) }
    ∧ (streamNotificationsOpen ServerState.empty "sX").streamingSessions.lookup
        "sX" = some Session.fresh
    ∧ (streamTasksOnEnd ServerState.empty "sX").taskStreams.lookup "sX" = none
    ∧ (streamNotificationsOnEnd ServerState.empty
          "sX").streamingSessions.lookup "sX" = none
    ∧ streamTasksOnEnd (streamTasksOnEnd ServerState.empty "sX") "sX"
      = streamTasksOnEnd ServerState.empty "sX" :=
  C2_amended_close_registry ServerState.empty "sX" "bad" (fun _ => none)
    (.ok []) rfl

/-- C4 counterexample: the snapshot is **not** drained synchronously
before `streamTasks` returns.  With a valid token and a non-empty task
set for the caller, the handle has received nothing at open-return (the
query lives in a promise callback); moreover a mutation broadcast racing
the pending snapshot is delivered to the stream **before** the snapshot
rows, which the claimed ordering forbids. -/
theorem C4_counterexample :
    (((streamTasksOpen ServerState.empty "s1").taskStreams.lookup "s1").map
        (fun s => s.buffer) = some ([] : List Task))
    ∧ ([({ id := "id1", title := "T", description := "",
           priority := "medium", userId := "u1", completed := false } :
          Task)].filter (fun t => t.userId = "u1") ≠ [])
    ∧ ((streamTasksResolve
          (fun t => if t = "tok" then some ⟨"u1"⟩ else none)
          (.ok [⟨"id1", "T", "", "medium", "u1", false⟩])
          (notifyStreams (streamTasksOpen ServerState.empty "s1")
            "TASK_CREATED" ⟨"id2", "T2", "", "medium", "u2", false⟩ 9)
          "s1" "tok").taskStreams.lookup "s1").map (fun s => s.buffer)
      = some [⟨"id2", "T2", "", "medium", "u2", false⟩,
              ⟨"id1", "T", "", "medium", "u1", false⟩] := by
  exact ⟨rfl, by decide, rfl⟩

/-- C4 amended: on a `streamTasks` open with a valid token the handle
has received nothing when the open returns; the caller's current task
set (the rows with the caller's userId) is drained only when the pending
validation/query promise resolves, and thereafter each mutation's
resulting task is appended to the stream. -/
theorem C4_amended_async_snapshot (st : ServerState) (sid tok : String)
    (verify : String → Option User) (table : List Task) (user : User)
    (hv : verify tok = some user) :
    ((streamTasksOpen st sid).taskStreams.lookup sid).map Session.buffer
      = some []
    ∧ ((streamTasksResolve verify (.ok table) (streamTasksOpen st sid) sid
          tok).taskStreams.lookup sid).map Session.buffer
      = some (table.filter (fun t => t.userId = user.id))
    ∧ ∀ (ntype : String) (task : Task) (now : Nat),
        ((notifyStreams
            (streamTasksResolve verify (.ok table) (streamTasksOpen st sid)
              sid tok) ntype task now).taskStreams.lookup sid).map
          Session.buffer
        = some (table.filter (fun t => t.userId = user.id) ++ [task]) := by
  have h1 : (streamTasksOpen st sid).taskStreams.lookup sid
      = some Session.fresh := by
    unfold streamTasksOpen
    exact lookup_mapSet_self _ _ _
  have h2 : (streamTasksResolve verify (.ok table) (streamTasksOpen st sid)
        sid tok).taskStreams.lookup sid
      = some ⟨false, false, table.filter (fun t => t.userId = user.id)⟩ := by
    unfold streamTasksResolve
    simp only [h1, hv]
    simp only [Session.fresh, Bool.false_eq_true, false_and, if_false,
      List.nil_append, ite_false]
    exact lookup_mapSet_self _ _ _
  refine ⟨?_, ?_, ?_⟩
  · rw [h1]
    rfl
  · rw [h2]
    rfl
  · intro ntype task now
    unfold notifyStreams
    have h3 := lookup_map_value
      (streamTasksResolve verify (.ok table) (streamTasksOpen st sid) sid
        tok).taskStreams sid (fun s => writeCaught s task)
    simp only [] at h3 ⊢
    rw [h3, h2]
    simp [writeCaught, writeRaw]

/-- C4 witness: the amended snapshot-then-tail behavior at a concrete
open with one stored task. -/
theorem C4_witness :
    (((streamTasksOpen ServerState.empty "sW").taskStreams.lookup
        "sW").map Session.buffer = some [])
    ∧ ((streamTasksResolve
          (fun t => if t = "tok" then some ⟨"u1"⟩ else none)
          (.ok [⟨"id1", "T", "", "medium", "u1", false⟩])
          (streamTasksOpen ServerState.empty "sW") "sW"
          "tok").taskStreams.lookup "sW").map Session.buffer
      = some ([⟨"id1", "T", "", "medium", "u1", false⟩].filter
          (fun t => t.userId = "u1")) :=
  ⟨(C4_amended_async_snapshot ServerState.empty "sW" "tok"
      (fun t => if t = "tok" then some ⟨"u1"⟩ else none)
      [⟨"id1", "T", "", "medium", "u1", false⟩] ⟨"u1"⟩ (by simp)).1,
   (C4_amended_async_snapshot ServerState.empty "sW" "tok"
      (fun t => if t = "tok" then some ⟨"u1"⟩ else none)
      [⟨"id1", "T", "", "medium", "u1", false⟩] ⟨"u1"⟩ (by simp)).2.1⟩

end LabDAMD
